import Mathlib

/-!
Verification of the stock-reservation and payment-confirmation core of the
market_link repository (src/orders and src/payments) against its
specification.

The embedding below translates the relevant Python into Lean:

* `RepairOrder.Status` (src/orders/models.py) becomes `OrderStatus`;
  `RepairOrder.can_be_paid` / `RepairOrder.mark_as_paid` become `canBePaid`
  and `markAsPaid` (the Django `save` is a pure record update; the
  `ValidationError` raise is an `Except.error`).
* `PaymentEvent` (src/payments/models.py) keeps its event id (modelled as a
  `Nat`), order reference, event type, amount, status and error message.
  Monetary amounts are modelled uniformly in integer minor units (cents),
  matching the comparison `intent.amount != int(order.total_amount * 100)`
  in src/payments/utils.py; timestamps and the raw JSON payload are opaque
  to every property considered here and are omitted.
* The database visible to the payment code is a `DB`: a list of orders and
  a list of payment-event rows.  `RepairOrder.objects.get` becomes
  `findOrder`, `PaymentEvent.objects.filter(event_id=...).exists()` becomes
  `hasEvent`, `PaymentEvent.objects.create` becomes `recordEvent`, and a
  Django `save` of an order becomes `saveOrder`.
* `handle_payment_intent_succeeded` (src/payments/utils.py lines 83-164)
  becomes `handlePaymentIntentSucceeded`.  The `transaction.atomic()` block
  is given commit semantics: the returned `DB` reflects the state after
  commit or rollback.  The Celery `send_invoice_and_start_processing.delay`
  call is the last statement inside the atomic block; the boolean
  `enqueueFails` input models that call raising, in which case the whole
  block rolls back and the outer `except` returns failure.  The ghost field
  `enqueued` records whether the enqueue call completed.
* `send_invoice_and_start_processing` (src/payments/tasks.py) becomes
  `sendInvoiceAndStartProcessing`; the inner e-mail try/except swallows
  mail errors, so only the status write is observable.
* `stripe_webhook_view` (src/payments/views.py) becomes
  `stripeWebhookView`; signature verification is an external collaborator,
  modelled by the `Option WebhookEvent` input (none = verification failed),
  and HTTP statuses are the literal numbers 200 and 400.
* `try_reserve_stock` / `release_stock` (src/orders/utils.py) become
  `tryReserveStock` / `releaseStock` over a `ResState` holding the Redis
  lock entry for one variant (`Option Nat` = optional holder token) and
  that variant's stock count (an `Int`, so that non-negativity is a real
  invariant).  `cache.add` is the atomic set-if-absent on `lock`;
  the boolean `raises` input models an exception inside the transactional
  block (the transaction then rolls back); `mid` models the Redis TTL
  expiring, and possibly another holder re-acquiring, between the
  transactional block and the release code.  The ghost fields `acquired`,
  `releaseAttempted` and `deletedForeign` are observers of the execution
  trace and are not part of the Python return value.
-/

namespace MarketLink

/-- Order status enum, from `RepairOrder.Status` in src/orders/models.py. -/
inductive OrderStatus where
  | pending
  | paid
  | processing
  | completed
  | failed
  | cancelled
  deriving DecidableEq, Repr

/-- Payment-event processing status, from `PaymentEvent.WebhookStatus` in
src/payments/models.py. -/
inductive EventStatus where
  | pending
  | processed
  | failed
  deriving DecidableEq, Repr

/-- A repair order, from `RepairOrder` in src/orders/models.py.  The total
amount is kept in integer minor units (cents); customer, vendor, variant
references and timestamps play no role in the claims and are omitted. -/
structure RepairOrder where
  id : Nat
  totalAmountCents : Int
  status : OrderStatus
  deriving DecidableEq, Repr

/-- A payment-event row, from `PaymentEvent` in src/payments/models.py. -/
structure PaymentEvent where
  eventId : Nat
  orderId : Nat
  eventType : String
  amountCents : Int
  status : EventStatus
  errorMessage : Option String
  deriving DecidableEq, Repr

/-- An inbound Stripe webhook event as read by the payment code: the event
id `event.id`, the type `event.type`, the order id from
`event.data.object.metadata.order_id` (possibly missing), and the amount
`event.data.object.amount` in minor units. -/
structure WebhookEvent where
  id : Nat
  eventType : String
  orderId : Option Nat
  amountCents : Int
  deriving DecidableEq, Repr

/-- The database state visible to the payment code: the repair orders and
the payment-event rows. -/
structure DB where
  orders : List RepairOrder
  events : List PaymentEvent
  deriving DecidableEq, Repr

/-- Embeds `RepairOrder.objects.get(id=order_id)`: the first stored order
with the given id, if any. -/
def findOrder (db : DB) (oid : Nat) : Option RepairOrder :=
  db.orders.find? (fun o => o.id == oid)

/-- Embeds `PaymentEvent.objects.filter(event_id=event_id).exists()`. -/
def hasEvent (db : DB) (eid : Nat) : Bool :=
  db.events.any (fun e => e.eventId == eid)

/-- All stored payment-event rows carrying the given external event id. -/
def eventsFor (db : DB) (eid : Nat) : List PaymentEvent :=
  db.events.filter (fun e => e.eventId == eid)

/-- Embeds `PaymentEvent.objects.create(...)`: appends a new row. -/
def recordEvent (db : DB) (pe : PaymentEvent) : DB :=
  { db with events := db.events ++ [pe] }

/-- Embeds a Django `save()` of an order: the stored row with this primary
key is overwritten. -/
def saveOrder (db : DB) (o2 : RepairOrder) : DB :=
  { db with orders := db.orders.map (fun o => if o.id == o2.id then o2 else o) }

/-- Embeds `RepairOrder.can_be_paid` (src/orders/models.py line 37). -/
def canBePaid (o : RepairOrder) : Bool :=
  o.status == OrderStatus.pending

/-- Embeds `RepairOrder.mark_as_paid` (src/orders/models.py lines 41-46):
if the order cannot be paid, raise `ValidationError` before any mutation;
otherwise set the status to PAID and save. -/
def markAsPaid (o : RepairOrder) : Except String RepairOrder :=
  if canBePaid o then
    Except.ok { o with status := OrderStatus.paid }
  else
    Except.error "Order cannot be marked as paid"

/-- The observable outcome of one `handle_payment_intent_succeeded` call:
the Python `(success, message, order_id)` triple, the database state after
the call (post commit or rollback), and the ghost flag `enqueued` telling
whether the Celery enqueue call completed. -/
structure HandleOutcome where
  success : Bool
  message : String
  orderId : Option Nat
  db : DB
  enqueued : Bool
  deriving DecidableEq, Repr

/-- Embeds `handle_payment_intent_succeeded` (src/payments/utils.py lines
83-164).  Steps, in source order: missing order id, order lookup,
idempotency check on any existing `PaymentEvent` row with this event id,
amount comparison in minor units (recording a FAILED row on mismatch),
then one atomic block running `mark_as_paid`, creating the PROCESSED row
and calling `send_invoice_and_start_processing.delay`.  An exception in
the atomic block (the `ValidationError` from the guard, or the enqueue
call raising when `enqueueFails` is true) rolls the block back and is
caught by the outer `except`, which returns failure. -/
def handlePaymentIntentSucceeded (ev : WebhookEvent) (enqueueFails : Bool)
    (db : DB) : HandleOutcome :=
  match ev.orderId with
  | none => ⟨false, "Missing order_id in metadata", none, db, false⟩
  | some oid =>
    match findOrder db oid with
    | none => ⟨false, "Order not found", none, db, false⟩
    | some order =>
      if hasEvent db ev.id then
        ⟨true, "Event already processed", some oid, db, false⟩
      else if ev.amountCents ≠ order.totalAmountCents then
        ⟨false, "Payment amount does not match order total", some oid,
          recordEvent db
            { eventId := ev.id, orderId := oid, eventType := "payment.failed",
              amountCents := ev.amountCents, status := EventStatus.failed,
              errorMessage := some "Amount mismatch" }, false⟩
      else
        match markAsPaid order with
        | Except.error e =>
          ⟨false, "Error processing payment: " ++ e, some oid, db, false⟩
        | Except.ok order2 =>
          if enqueueFails then
            ⟨false, "Error processing payment: enqueue failed", some oid, db, false⟩
          else
            ⟨true, "Payment processed successfully", some oid,
              recordEvent (saveOrder db order2)
                { eventId := ev.id, orderId := oid, eventType := "payment.success",
                  amountCents := order.totalAmountCents,
                  status := EventStatus.processed, errorMessage := none }, true⟩

/-- Embeds the Celery task `send_invoice_and_start_processing`
(src/payments/tasks.py lines 11-68): look the order up (missing order
returns false), attempt the invoice e-mail inside a try/except that
swallows any mail error, then set the status to PROCESSING and save,
with no transition guard. -/
def sendInvoiceAndStartProcessing (oid : Nat) (db : DB) : Bool × DB :=
  match findOrder db oid with
  | none => (false, db)
  | some o => (true, saveOrder db { o with status := OrderStatus.processing })

/-- Embeds `stripe_webhook_view` (src/payments/views.py lines 15-94).  The
`sigEvent` input is the result of `verify_stripe_webhook_signature` (an
external collaborator): `none` means signature or payload verification
failed.  The returned `Nat` is the HTTP status code of the response. -/
def stripeWebhookView (sigEvent : Option WebhookEvent) (enqueueFails : Bool)
    (db : DB) : Nat × DB :=
  match sigEvent with
  | none => (400, db)
  | some ev =>
    if ev.eventType == "payment_intent.succeeded" then
      let out := handlePaymentIntentSucceeded ev enqueueFails db
      if out.success then (200, out.db) else (400, out.db)
    else if ev.eventType == "payment_intent.payment_failed" then
      (200, db)
    else
      (200, db)

/-- Modelled from the spec: the legal edges of the Order State Machine
(spec section 4.4: PENDING→PAID→PROCESSING→COMPLETED, PENDING→CANCELLED,
PAID/PROCESSING→FAILED).  The source implements a guard only for
PENDING→PAID (`mark_as_paid`); the full edge set exists only in the spec
and is needed to state claim C9. -/
def legalEdge : OrderStatus → OrderStatus → Bool
  | OrderStatus.pending, OrderStatus.paid => true
  | OrderStatus.paid, OrderStatus.processing => true
  | OrderStatus.processing, OrderStatus.completed => true
  | OrderStatus.pending, OrderStatus.cancelled => true
  | OrderStatus.paid, OrderStatus.failed => true
  | OrderStatus.processing, OrderStatus.failed => true
  | _, _ => false

/-- The state of one service variant as seen by src/orders/utils.py: the
Redis lock entry for the variant (`none` = absent, `some t` = held with
token `t`; tokens model the `uuid4` lock ids) and the variant's stock
count. -/
structure ResState where
  lock : Option Nat
  stock : Int
  deriving DecidableEq, Repr

/-- The outcome of one `try_reserve_stock` call: the Python boolean result,
the final state, and three ghost observers of the execution trace:
`acquired` (the `cache.add` succeeded), `releaseAttempted` (some release
code ran after acquisition), and `deletedForeign` (a `cache.delete`
removed a lock entry holding a token different from this caller's). -/
structure ReserveOutcome where
  result : Bool
  state : ResState
  acquired : Bool
  releaseAttempted : Bool
  deletedForeign : Bool
  deriving DecidableEq, Repr

/-- Applies the modelled mid-call interference: `none` leaves the lock
entry alone; `some v` replaces it by `v`, modelling TTL expiry (`some
none`) possibly followed by re-acquisition by another holder (`some (some
t)`).  Stock is never touched: only the Redis entry can expire. -/
def applyMid (mid : Option (Option Nat)) (s : ResState) : ResState :=
  match mid with
  | none => s
  | some v => { s with lock := v }

/-- Embeds the `finally` block of `try_reserve_stock` (src/orders/utils.py
lines 62-66): read the stored lock value and delete the entry only if it
still equals this caller's lock id. -/
def checkedRelease (lockId : Nat) (s : ResState) : ResState :=
  if s.lock == some lockId then { s with lock := none } else s

/-- Embeds `try_reserve_stock` (src/orders/utils.py lines 15-71).
`cache.add` fails iff an entry is present.  After acquisition the
transactional block either raises (`raises` true: the transaction rolls
back, the `finally` runs its checked release, then the outer `except`
deletes the lock key unconditionally and returns false) or reads the
stock under select-for-update and decrements iff it is positive, after
which the `finally` runs its checked release and the block's boolean is
returned.  `mid` is applied between the transactional block and the
release code. -/
def tryReserveStock (lockId : Nat) (raises : Bool) (mid : Option (Option Nat))
    (s : ResState) : ReserveOutcome :=
  if s.lock.isSome then
    { result := false, state := s, acquired := false,
      releaseAttempted := false, deletedForeign := false }
  else
    let s1 : ResState := { s with lock := some lockId }
    if raises then
      let s2 := applyMid mid s1
      let s3 := checkedRelease lockId s2
      let foreign :=
        match s3.lock with
        | some t => t != lockId
        | none => false
      { result := false, state := { s3 with lock := none }, acquired := true,
        releaseAttempted := true, deletedForeign := foreign }
    else
      let res := decide (0 < s1.stock)
      let s2 : ResState :=
        if 0 < s1.stock then { s1 with stock := s1.stock - 1 } else s1
      let s3 := applyMid mid s2
      { result := res, state := checkedRelease lockId s3, acquired := true,
        releaseAttempted := true, deletedForeign := false }

/-- Embeds `release_stock` (src/orders/utils.py lines 74-92): increment the
variant's stock by one inside its own transaction. -/
def releaseStock (s : ResState) : ResState :=
  { s with stock := s.stock + 1 }

/-- One operation of the reservation subsystem, for stating the stock
non-negativity invariant over arbitrary operation sequences. -/
inductive StockOp where
  | reserve (lockId : Nat) (raises : Bool) (mid : Option (Option Nat))
  | release
  deriving DecidableEq, Repr

/-- Runs a sequence of reserve/release operations from a state. -/
def runOps : List StockOp → ResState → ResState
  | [], s => s
  | StockOp.reserve lid r m :: ops, s => runOps ops (tryReserveStock lid r m s).state
  | StockOp.release :: ops, s => runOps ops (releaseStock s)

/-! Helper lemmas shared by the claim theorems. -/

theorem applyMid_stock (mid : Option (Option Nat)) (s : ResState) :
    (applyMid mid s).stock = s.stock := by
  cases mid <;> rfl

theorem checkedRelease_stock (lockId : Nat) (s : ResState) :
    (checkedRelease lockId s).stock = s.stock := by
  unfold checkedRelease
  split <;> rfl

theorem tryReserveStock_stock (lockId : Nat) (raises : Bool)
    (mid : Option (Option Nat)) (s : ResState) :
    (tryReserveStock lockId raises mid s).state.stock =
      if s.lock = none ∧ raises = false ∧ 0 < s.stock then s.stock - 1
      else s.stock := by
  unfold tryReserveStock
  cases hl : s.lock with
  | some t => simp [hl]
  | none =>
    cases raises with
    | true => simp [checkedRelease_stock, applyMid_stock]
    | false =>
      by_cases hs : 0 < s.stock <;>
        simp [hs, checkedRelease_stock, applyMid_stock]

theorem tryReserveStock_result (lockId : Nat) (raises : Bool)
    (mid : Option (Option Nat)) (s : ResState) :
    (tryReserveStock lockId raises mid s).result =
      decide (s.lock = none ∧ raises = false ∧ 0 < s.stock) := by
  unfold tryReserveStock
  cases hl : s.lock with
  | some t => simp [hl]
  | none =>
    cases raises with
    | true => simp
    | false => by_cases hs : 0 < s.stock <;> simp [hs]

theorem tryReserveStock_nonneg (lockId : Nat) (raises : Bool)
    (mid : Option (Option Nat)) (s : ResState) (h : 0 ≤ s.stock) :
    0 ≤ (tryReserveStock lockId raises mid s).state.stock := by
  rw [tryReserveStock_stock]
  split
  · omega
  · exact h

theorem runOps_nonneg : ∀ (ops : List StockOp) (s : ResState),
    0 ≤ s.stock → 0 ≤ (runOps ops s).stock
  | [], _, h => h
  | StockOp.reserve lid r m :: ops, s, h =>
    runOps_nonneg ops _ (tryReserveStock_nonneg lid r m s h)
  | StockOp.release :: ops, s, h => by
    refine runOps_nonneg ops _ ?_
    simp only [releaseStock]
    omega

theorem markAsPaid_ok_iff (o o2 : RepairOrder) :
    markAsPaid o = Except.ok o2 ↔
      (o.status = OrderStatus.pending ∧ o2 = { o with status := OrderStatus.paid }) := by
  unfold markAsPaid canBePaid
  by_cases h : o.status = OrderStatus.pending
  · rw [if_pos (by simp [h])]
    simp only [Except.ok.injEq, h, true_and]
    exact eq_comm
  · rw [if_neg (by simp [h])]
    simp [h]

theorem markAsPaid_error_of_not_pending (o : RepairOrder)
    (h : o.status ≠ OrderStatus.pending) :
    markAsPaid o = Except.error "Order cannot be marked as paid" := by
  unfold markAsPaid canBePaid
  simp [h]

/-! C4.  PENDING→PAID guard of the Order State Machine. -/

/-- C4: `mark_as_paid` succeeds exactly when the order's current status is
PENDING, in which case the only change is the status becoming PAID; for
every other current status it raises the `ValidationError` before any
mutation, so the order is left unchanged. -/
theorem c4_mark_as_paid_guard (o : RepairOrder) :
    (markAsPaid o = Except.ok { o with status := OrderStatus.paid } ↔
      o.status = OrderStatus.pending) ∧
    (o.status ≠ OrderStatus.pending →
      markAsPaid o = Except.error "Order cannot be marked as paid") := by
  constructor
  · constructor
    · intro h
      exact ((markAsPaid_ok_iff o _).mp h).1
    · intro h
      exact (markAsPaid_ok_iff o _).mpr ⟨h, rfl⟩
  · exact markAsPaid_error_of_not_pending o

/-- Witness for C4: applied to a concrete already-PAID order, the
transition fails. -/
theorem c4_mark_as_paid_guard_witness :
    markAsPaid ⟨1, 1200, OrderStatus.paid⟩ =
      Except.error "Order cannot be marked as paid" :=
  (c4_mark_as_paid_guard ⟨1, 1200, OrderStatus.paid⟩).2 (by decide)

/-! C2.  Stock reservation semantics and the non-negativity invariant. -/

/-- C2: when the reservation code reaches the decrement (the lock was free,
so acquisition succeeds, and the transactional block does not raise), it
returns true exactly when the stock was positive, decrementing by exactly
one in that case; on every path a zero stock yields false with the stock
unchanged; and the stock stays non-negative after the call and under every
sequence of reserve/release operations. -/
theorem c2_reserve_stock_semantics (lockId : Nat) (raises : Bool)
    (mid : Option (Option Nat)) (s : ResState) (hnn : 0 ≤ s.stock) :
    (s.lock = none → raises = false →
      (((tryReserveStock lockId raises mid s).result = true ↔ 0 < s.stock) ∧
       (0 < s.stock →
         (tryReserveStock lockId raises mid s).state.stock = s.stock - 1))) ∧
    (s.stock = 0 →
      (tryReserveStock lockId raises mid s).result = false ∧
      (tryReserveStock lockId raises mid s).state.stock = s.stock) ∧
    0 ≤ (tryReserveStock lockId raises mid s).state.stock ∧
    (∀ ops : List StockOp, 0 ≤ (runOps ops s).stock) := by
  refine ⟨?_, ?_, tryReserveStock_nonneg lockId raises mid s hnn,
    fun ops => runOps_nonneg ops s hnn⟩
  · intro hl hr
    rw [tryReserveStock_result, tryReserveStock_stock]
    constructor
    · simp [hl, hr]
    · intro hs
      simp [hl, hr, hs]
  · intro h0
    rw [tryReserveStock_result, tryReserveStock_stock]
    constructor
    · simp [h0]
    · simp [h0]

/-- Witness for C2: from a free lock and stock 1, a clean reservation
returns true; from stock 0 it returns false with stock unchanged. -/
theorem c2_reserve_stock_semantics_witness :
    (tryReserveStock 1 false none ⟨none, 1⟩).result = true ∧
    (tryReserveStock 2 false none ⟨none, 0⟩).result = false ∧
    (tryReserveStock 2 false none ⟨none, 0⟩).state.stock = 0 := by
  refine ⟨?_, ?_, ?_⟩
  · exact ((c2_reserve_stock_semantics 1 false none ⟨none, 1⟩ (by decide)).1
      rfl rfl).1.mpr (by decide)
  · exact ((c2_reserve_stock_semantics 2 false none ⟨none, 0⟩ (by decide)).2.1
      rfl).1
  · exact ((c2_reserve_stock_semantics 2 false none ⟨none, 0⟩ (by decide)).2.1
      rfl).2

theorem filter_eq_nil_of_any_eq_false {α : Type} (p : α → Bool) :
    ∀ l : List α, l.any p = false → l.filter p = []
  | [], _ => rfl
  | a :: t, h => by
    simp only [List.any_cons, Bool.or_eq_false_iff] at h
    rw [List.filter_cons, if_neg (by simp [h.1])]
    exact filter_eq_nil_of_any_eq_false p t h.2

theorem find?_update_of_find? (oid : Nat) (o2 : RepairOrder) :
    ∀ (l : List RepairOrder) (order : RepairOrder),
      l.find? (fun o => o.id == oid) = some order → o2.id = order.id →
      (l.map (fun o => if o.id == o2.id then o2 else o)).find?
        (fun o => o.id == oid) = some o2
  | [], order, h, _ => by simp at h
  | a :: t, order, h, hid => by
    cases hpa : (a.id == oid) with
    | true =>
      have hfind : (a :: t).find? (fun o => o.id == oid) = some a := by
        simp [hpa]
      rw [hfind] at h
      injection h with h2
      subst h2
      have hcond : (a.id == o2.id) = true := by
        simp only [beq_iff_eq]
        exact hid.symm
      simp only [List.map_cons]
      rw [if_pos hcond]
      have ho2 : (o2.id == oid) = true := by
        simp only [beq_iff_eq] at hpa ⊢
        rw [hid]
        exact hpa
      simp [ho2]
    | false =>
      have hfind : (a :: t).find? (fun o => o.id == oid) =
          t.find? (fun o => o.id == oid) := by
        simp [hpa]
      rw [hfind] at h
      have hordid := List.find?_some h
      have hcond : ¬((a.id == o2.id) = true) := by
        simp only [beq_iff_eq, beq_eq_false_iff_ne] at hordid hpa ⊢
        rw [hid, hordid]
        exact hpa
      simp only [List.map_cons]
      rw [if_neg hcond]
      have hstep :
          (a :: t.map (fun o => if o.id == o2.id then o2 else o)).find?
            (fun o => o.id == oid) =
          (t.map (fun o => if o.id == o2.id then o2 else o)).find?
            (fun o => o.id == oid) := by
        simp [hpa]
      rw [hstep]
      exact find?_update_of_find? oid o2 t order h hid

theorem findOrder_recordEvent (db : DB) (pe : PaymentEvent) (oid : Nat) :
    findOrder (recordEvent db pe) oid = findOrder db oid := rfl

theorem findOrder_saveOrder (db : DB) (oid : Nat) (order o2 : RepairOrder)
    (h : findOrder db oid = some order) (hid : o2.id = order.id) :
    findOrder (saveOrder db o2) oid = some o2 :=
  find?_update_of_find? oid o2 db.orders order h hid

theorem hasEvent_saveOrder (db : DB) (o2 : RepairOrder) (eid : Nat) :
    hasEvent (saveOrder db o2) eid = hasEvent db eid := rfl

theorem eventsFor_recordEvent_fresh (db : DB) (pe : PaymentEvent) (eid : Nat)
    (hfresh : hasEvent db eid = false) (hpe : (pe.eventId == eid) = true) :
    eventsFor (recordEvent db pe) eid = [pe] := by
  unfold eventsFor recordEvent
  simp only [List.filter_append]
  rw [filter_eq_nil_of_any_eq_false _ _ hfresh]
  simp [List.filter_cons, hpe]

theorem hasEvent_recordEvent (db : DB) (pe : PaymentEvent) (eid : Nat)
    (hpe : (pe.eventId == eid) = true) :
    hasEvent (recordEvent db pe) eid = true := by
  unfold hasEvent recordEvent
  simp [List.any_append, List.any_cons, hpe]

/-! C6.  Lock release on the exit paths of `try_reserve_stock`. -/

/-- C6 counterexample: with lock id 1, an exception in the transactional
block, and the lock entry having expired and been re-acquired by holder 2
before the release code runs, the unconditional `cache.delete` in the
`except` handler removes holder 2's entry: `deletedForeign` is true and
the final state holds no lock entry, although token 2 differs from token
1.  This refutes the part of C6 stating a lock entry holding a different
holder's token is never deleted by this caller. -/
theorem c6_counterexample :
    (tryReserveStock 1 true (some (some 2)) ⟨none, 5⟩).deletedForeign = true ∧
    (tryReserveStock 1 true (some (some 2)) ⟨none, 5⟩).state.lock = none ∧
    (2 : Nat) ≠ 1 := by decide

/-- C6 amended: after acquisition, release is attempted on every exit path;
on the non-exception paths (success and stock exhausted) the entry is
removed only when the stored token matches this caller's token; but on the
exception path the `except` handler additionally deletes the entry
unconditionally, so an entry holding a different holder's token is deleted
whenever the lock changed hands before the handler runs. -/
theorem c6_release_paths (lockId : Nat) (raises : Bool)
    (mid : Option (Option Nat)) (s : ResState) :
    ((tryReserveStock lockId raises mid s).acquired = true ↔ s.lock = none) ∧
    ((tryReserveStock lockId raises mid s).acquired = true →
      (tryReserveStock lockId raises mid s).releaseAttempted = true) ∧
    (raises = false → (tryReserveStock lockId raises mid s).deletedForeign = false) ∧
    (s.lock = none → raises = true →
      (tryReserveStock lockId raises mid s).state.lock = none ∧
      (∀ t : Nat, applyMid mid { s with lock := some lockId } =
          { s with lock := some t } → t ≠ lockId →
        (tryReserveStock lockId raises mid s).deletedForeign = true)) := by
  unfold tryReserveStock
  cases hl : s.lock with
  | some t => simp [hl]
  | none =>
    cases raises with
    | true =>
      simp only [Option.isSome_none, Bool.false_eq_true, if_false]
      refine ⟨by simp, by simp, by simp, ?_⟩
      intro _ _
      constructor
      · simp
      · intro t hmid hne
        simp only [hmid]
        unfold checkedRelease
        simp [hne]
    | false =>
      by_cases hs : 0 < s.stock <;> simp [hs]

/-- Witness for C6 amended: a clean run from a free lock acquires, attempts
release, and deletes no foreign entry. -/
theorem c6_release_paths_witness :
    (tryReserveStock 3 false none ⟨none, 4⟩).releaseAttempted = true ∧
    (tryReserveStock 3 false none ⟨none, 4⟩).deletedForeign = false := by
  refine ⟨?_, ?_⟩
  · exact (c6_release_paths 3 false none ⟨none, 4⟩).2.1
      ((c6_release_paths 3 false none ⟨none, 4⟩).1.mpr rfl)
  · exact (c6_release_paths 3 false none ⟨none, 4⟩).2.2.1 rfl

/-! Concrete fixtures used by witnesses and counterexamples. -/

/-- A concrete order: id 1, total 1200 cents, status PENDING. -/
def exOrderPending : RepairOrder := ⟨1, 1200, OrderStatus.pending⟩

/-- A database holding just the pending order and no payment events. -/
def exDb : DB := ⟨[exOrderPending], []⟩

/-- A webhook event matching the order total. -/
def exEvent : WebhookEvent := ⟨7, "payment_intent.succeeded", some 1, 1200⟩

/-- A webhook event whose amount 1000 differs from the order total 1200. -/
def exEventMismatch : WebhookEvent := ⟨7, "payment_intent.succeeded", some 1, 1000⟩

/-! C1.  Exactly-once application of a duplicated payment event. -/

/-- C1: delivering the identical payment event twice: the first call
succeeds, moves the PENDING order to PAID and stores exactly one
PaymentEvent with status PROCESSED for the event id; the second call
returns success with the message "Event already processed", leaves the
database (order status and event rows) exactly as the first call left it,
and records nothing new. -/
theorem c1_duplicate_delivery (ev : WebhookEvent) (db : DB) (oid : Nat)
    (order : RepairOrder)
    (hoid : ev.orderId = some oid)
    (hord : findOrder db oid = some order)
    (hst : order.status = OrderStatus.pending)
    (hamt : ev.amountCents = order.totalAmountCents)
    (hnew : hasEvent db ev.id = false) :
    (handlePaymentIntentSucceeded ev false db).success = true ∧
    findOrder (handlePaymentIntentSucceeded ev false db).db oid =
      some { order with status := OrderStatus.paid } ∧
    (eventsFor (handlePaymentIntentSucceeded ev false db).db ev.id).map
      PaymentEvent.status = [EventStatus.processed] ∧
    (handlePaymentIntentSucceeded ev false
      (handlePaymentIntentSucceeded ev false db).db).success = true ∧
    (handlePaymentIntentSucceeded ev false
      (handlePaymentIntentSucceeded ev false db).db).message =
      "Event already processed" ∧
    (handlePaymentIntentSucceeded ev false
      (handlePaymentIntentSucceeded ev false db).db).db =
      (handlePaymentIntentSucceeded ev false db).db := by
  have hmk : markAsPaid order =
      Except.ok { order with status := OrderStatus.paid } :=
    (markAsPaid_ok_iff order _).mpr ⟨hst, rfl⟩
  have h1 : handlePaymentIntentSucceeded ev false db =
      ⟨true, "Payment processed successfully", some oid,
        recordEvent (saveOrder db { order with status := OrderStatus.paid })
          { eventId := ev.id, orderId := oid, eventType := "payment.success",
            amountCents := order.totalAmountCents,
            status := EventStatus.processed, errorMessage := none }, true⟩ := by
    simp [handlePaymentIntentSucceeded, hoid, hord, hnew, hamt, hmk]
  have hsucc1 : (handlePaymentIntentSucceeded ev false db).success = true := by
    rw [h1]
  have hfind1 : findOrder (handlePaymentIntentSucceeded ev false db).db oid =
      some { order with status := OrderStatus.paid } := by
    rw [h1]
    exact findOrder_saveOrder db oid order _ hord rfl
  have hev1 : eventsFor (handlePaymentIntentSucceeded ev false db).db ev.id =
      [{ eventId := ev.id, orderId := oid, eventType := "payment.success",
         amountCents := order.totalAmountCents,
         status := EventStatus.processed, errorMessage := none }] := by
    rw [h1]
    exact eventsFor_recordEvent_fresh _ _ _ hnew (by simp)
  have hmap1 : (eventsFor (handlePaymentIntentSucceeded ev false db).db
      ev.id).map PaymentEvent.status = [EventStatus.processed] := by
    rw [hev1]
    rfl
  have hhas1 :
      hasEvent (handlePaymentIntentSucceeded ev false db).db ev.id = true := by
    rw [h1]
    exact hasEvent_recordEvent _ _ _ (by simp)
  have h2 : handlePaymentIntentSucceeded ev false
        (handlePaymentIntentSucceeded ev false db).db =
      ⟨true, "Event already processed", some oid,
        (handlePaymentIntentSucceeded ev false db).db, false⟩ := by
    revert hfind1 hhas1
    generalize (handlePaymentIntentSucceeded ev false db).db = db1
    intro hfind1 hhas1
    simp [handlePaymentIntentSucceeded, hoid, hfind1, hhas1]
  exact ⟨hsucc1, hfind1, hmap1, by rw [h2], by rw [h2], by rw [h2]⟩

/-- Witness for C1 at the concrete fixtures: the first delivery succeeds
and the second reports the event as already processed. -/
theorem c1_duplicate_delivery_witness :
    (handlePaymentIntentSucceeded exEvent false exDb).success = true ∧
    (handlePaymentIntentSucceeded exEvent false
      (handlePaymentIntentSucceeded exEvent false exDb).db).message =
      "Event already processed" := by
  have main := c1_duplicate_delivery exEvent exDb 1 exOrderPending
    rfl rfl rfl rfl rfl
  exact ⟨main.1, main.2.2.2.2.1⟩

/-! C3.  A failed PENDING→PAID guard aborts the whole transaction. -/

/-- C3: when the event reaches the transition step (order found, event id
fresh, amount matching) but the order is not PENDING, the call is
rejected, the database is exactly as before (no PaymentEvent row was kept
for the event id, the order status is untouched), and the event id is
still unrecorded, so a later delivery of the same id is not
short-circuited by the idempotency check. -/
theorem c3_invalid_transition_rollback (ev : WebhookEvent) (f : Bool)
    (db : DB) (oid : Nat) (order : RepairOrder)
    (hoid : ev.orderId = some oid)
    (hord : findOrder db oid = some order)
    (hnew : hasEvent db ev.id = false)
    (hamt : ev.amountCents = order.totalAmountCents)
    (hst : order.status ≠ OrderStatus.pending) :
    (handlePaymentIntentSucceeded ev f db).success = false ∧
    (handlePaymentIntentSucceeded ev f db).db = db ∧
    hasEvent (handlePaymentIntentSucceeded ev f db).db ev.id = false := by
  have hmk := markAsPaid_error_of_not_pending order hst
  have h1 : handlePaymentIntentSucceeded ev f db =
      ⟨false, "Error processing payment: " ++ "Order cannot be marked as paid",
        some oid, db, false⟩ := by
    simp [handlePaymentIntentSucceeded, hoid, hord, hnew, hamt, hmk]
  rw [h1]
  exact ⟨rfl, rfl, hnew⟩

/-- Witness for C3: a cancelled order with a matching amount rejects the
event and leaves the database unchanged. -/
theorem c3_invalid_transition_rollback_witness :
    (handlePaymentIntentSucceeded exEvent false
      ⟨[⟨1, 1200, OrderStatus.cancelled⟩], []⟩).success = false ∧
    (handlePaymentIntentSucceeded exEvent false
      ⟨[⟨1, 1200, OrderStatus.cancelled⟩], []⟩).db =
      ⟨[⟨1, 1200, OrderStatus.cancelled⟩], []⟩ := by
  have main := c3_invalid_transition_rollback exEvent false
    ⟨[⟨1, 1200, OrderStatus.cancelled⟩], []⟩ 1 ⟨1, 1200, OrderStatus.cancelled⟩
    rfl rfl rfl rfl (by decide)
  exact ⟨main.1, main.2.1⟩

/-! C5.  Amount mismatch: audit row, rejection, order left PENDING. -/

/-- C5: a first delivery (fresh event id) whose amount differs from the
order total is rejected; the PENDING order is untouched and exactly one
PaymentEvent with status FAILED is stored for the event id. -/
theorem c5_amount_mismatch (ev : WebhookEvent) (f : Bool) (db : DB)
    (oid : Nat) (order : RepairOrder)
    (hoid : ev.orderId = some oid)
    (hord : findOrder db oid = some order)
    (hnew : hasEvent db ev.id = false)
    (hst : order.status = OrderStatus.pending)
    (hamt : ev.amountCents ≠ order.totalAmountCents) :
    (handlePaymentIntentSucceeded ev f db).success = false ∧
    findOrder (handlePaymentIntentSucceeded ev f db).db oid = some order ∧
    order.status = OrderStatus.pending ∧
    (eventsFor (handlePaymentIntentSucceeded ev f db).db ev.id).map
      PaymentEvent.status = [EventStatus.failed] := by
  have h1 : handlePaymentIntentSucceeded ev f db =
      ⟨false, "Payment amount does not match order total", some oid,
        recordEvent db
          { eventId := ev.id, orderId := oid, eventType := "payment.failed",
            amountCents := ev.amountCents, status := EventStatus.failed,
            errorMessage := some "Amount mismatch" }, false⟩ := by
    simp [handlePaymentIntentSucceeded, hoid, hord, hnew, hamt]
  have hev : eventsFor (handlePaymentIntentSucceeded ev f db).db ev.id =
      [{ eventId := ev.id, orderId := oid, eventType := "payment.failed",
         amountCents := ev.amountCents, status := EventStatus.failed,
         errorMessage := some "Amount mismatch" }] := by
    rw [h1]
    exact eventsFor_recordEvent_fresh _ _ _ hnew (by simp)
  refine ⟨by rw [h1], ?_, hst, by rw [hev]; rfl⟩
  rw [h1]
  exact hord

/-- Witness for C5: amount 1000 against a 1200 order is rejected with one
FAILED row recorded. -/
theorem c5_amount_mismatch_witness :
    (handlePaymentIntentSucceeded exEventMismatch false exDb).success = false ∧
    (eventsFor (handlePaymentIntentSucceeded exEventMismatch false exDb).db
      exEventMismatch.id).map PaymentEvent.status = [EventStatus.failed] := by
  have main := c5_amount_mismatch exEventMismatch false exDb 1 exOrderPending
    rfl rfl rfl rfl (by decide)
  exact ⟨main.1, main.2.2.2⟩

/-! C10.  A FAILED audit row permanently blocks its event id. -/

/-- C10: if any PaymentEvent row with the event id already exists — here
one with status FAILED, as written by a prior amount-mismatch rejection —
then a later delivery of that id, even with an amount that now matches the
order total, is answered with success, message "Event already processed",
no database change and no enqueue: the idempotency check tests bare
existence of a row, not PROCESSED status, so the order can never be paid
through this event id. -/
theorem c10_failed_row_blocks_event_id (ev : WebhookEvent) (f : Bool)
    (db : DB) (oid : Nat) (order : RepairOrder) (pe : PaymentEvent)
    (hoid : ev.orderId = some oid)
    (hord : findOrder db oid = some order)
    (hpe : pe ∈ db.events)
    (hpeid : pe.eventId = ev.id)
    (hpest : pe.status = EventStatus.failed)
    (hamt : ev.amountCents = order.totalAmountCents) :
    (handlePaymentIntentSucceeded ev f db).success = true ∧
    (handlePaymentIntentSucceeded ev f db).message = "Event already processed" ∧
    (handlePaymentIntentSucceeded ev f db).db = db ∧
    (handlePaymentIntentSucceeded ev f db).enqueued = false := by
  have hhas : hasEvent db ev.id = true := by
    unfold hasEvent
    exact List.any_eq_true.mpr ⟨pe, hpe, by simp [hpeid]⟩
  have h1 : handlePaymentIntentSucceeded ev f db =
      ⟨true, "Event already processed", some oid, db, false⟩ := by
    simp [handlePaymentIntentSucceeded, hoid, hord, hhas]
  rw [h1]
  exact ⟨rfl, rfl, rfl, rfl⟩

/-- Witness for C10: with a FAILED row for event id 7 already stored, a
matching delivery of event 7 is a no-op reported as already processed. -/
theorem c10_failed_row_blocks_event_id_witness :
    (handlePaymentIntentSucceeded exEvent false
      ⟨[exOrderPending],
       [⟨7, 1, "payment.failed", 1000, EventStatus.failed,
         some "Amount mismatch"⟩]⟩).success = true ∧
    (handlePaymentIntentSucceeded exEvent false
      ⟨[exOrderPending],
       [⟨7, 1, "payment.failed", 1000, EventStatus.failed,
         some "Amount mismatch"⟩]⟩).db =
      ⟨[exOrderPending],
       [⟨7, 1, "payment.failed", 1000, EventStatus.failed,
         some "Amount mismatch"⟩]⟩ := by
  have main := c10_failed_row_blocks_event_id exEvent false
    ⟨[exOrderPending],
     [⟨7, 1, "payment.failed", 1000, EventStatus.failed,
       some "Amount mismatch"⟩]⟩ 1 exOrderPending
    ⟨7, 1, "payment.failed", 1000, EventStatus.failed, some "Amount mismatch"⟩
    rfl rfl (by simp) rfl rfl rfl
  exact ⟨main.1, main.2.2.1⟩

/-! C7.  Placement of the follow-up enqueue relative to the transaction. -/

/-- C7 counterexample: with a PENDING order, a matching fresh event and the
enqueue call raising, the confirmation does not survive: the call is
rejected and the database is exactly the initial one — the order is still
PENDING (not PAID) and no PaymentEvent row persists.  This refutes the
claim that the enqueue happens only after the transaction commits and that
an enqueue failure cannot roll the committed confirmation back: the code
issues `send_invoice_and_start_processing.delay` inside the
`transaction.atomic()` block, so its failure aborts the whole
transaction. -/
theorem c7_counterexample :
    (handlePaymentIntentSucceeded exEvent true exDb).success = false ∧
    (handlePaymentIntentSucceeded exEvent true exDb).db = exDb ∧
    (handlePaymentIntentSucceeded exEvent true exDb).enqueued = false := by
  decide

/-- C7 amended: the enqueue is issued inside the confirmation transaction
as its last step.  When the enqueue raises, the whole transaction rolls
back — the call is rejected, the database (order status and event rows) is
left exactly as before, and nothing was enqueued; when the enqueue
succeeds, the call succeeds and the task was enqueued exactly as part of
the committed confirmation. -/
theorem c7_enqueue_inside_transaction (ev : WebhookEvent) (db : DB)
    (oid : Nat) (order : RepairOrder)
    (hoid : ev.orderId = some oid)
    (hord : findOrder db oid = some order)
    (hst : order.status = OrderStatus.pending)
    (hamt : ev.amountCents = order.totalAmountCents)
    (hnew : hasEvent db ev.id = false) :
    ((handlePaymentIntentSucceeded ev true db).success = false ∧
     (handlePaymentIntentSucceeded ev true db).db = db ∧
     (handlePaymentIntentSucceeded ev true db).enqueued = false) ∧
    ((handlePaymentIntentSucceeded ev false db).success = true ∧
     (handlePaymentIntentSucceeded ev false db).enqueued = true) := by
  have hmk : markAsPaid order =
      Except.ok { order with status := OrderStatus.paid } :=
    (markAsPaid_ok_iff order _).mpr ⟨hst, rfl⟩
  have h1t : handlePaymentIntentSucceeded ev true db =
      ⟨false, "Error processing payment: enqueue failed", some oid, db,
        false⟩ := by
    simp [handlePaymentIntentSucceeded, hoid, hord, hnew, hamt, hmk]
  have h1f : handlePaymentIntentSucceeded ev false db =
      ⟨true, "Payment processed successfully", some oid,
        recordEvent (saveOrder db { order with status := OrderStatus.paid })
          { eventId := ev.id, orderId := oid, eventType := "payment.success",
            amountCents := order.totalAmountCents,
            status := EventStatus.processed, errorMessage := none }, true⟩ := by
    simp [handlePaymentIntentSucceeded, hoid, hord, hnew, hamt, hmk]
  exact ⟨⟨by rw [h1t], by rw [h1t], by rw [h1t]⟩, by rw [h1f], by rw [h1f]⟩

/-- Witness for C7 amended at the concrete fixtures. -/
theorem c7_enqueue_inside_transaction_witness :
    (handlePaymentIntentSucceeded exEvent true exDb).db = exDb ∧
    (handlePaymentIntentSucceeded exEvent false exDb).enqueued = true := by
  have main := c7_enqueue_inside_transaction exEvent exDb 1 exOrderPending
    rfl rfl rfl rfl rfl
  exact ⟨main.1.2.1, main.2.2⟩

/-! C8.  HTTP status returned for business-logic rejections. -/

/-- C8 counterexample: a webhook that passes signature verification but is
rejected by business logic (amount 1000 against an order totaling 1200)
receives HTTP 400, not a 2xx acknowledgement.  This refutes the claim that
only signature or payload problems produce a non-2xx outcome. -/
theorem c8_counterexample :
    (stripeWebhookView (some exEventMismatch) false exDb).1 = 400 := by
  rfl

/-- C8 amended: the endpoint returns 400 when signature verification
fails, and for a `payment_intent.succeeded` event it returns 200 exactly
when the handler accepts the event (a fresh success or a duplicate
acknowledged as already processed); every business-logic rejection (amount
mismatch, invalid transition, order not found, malformed event) is
answered with 400 as well.  Events of any other type are acknowledged
with 200. -/
theorem c8_status_characterization (sigEvent : Option WebhookEvent)
    (f : Bool) (db : DB) :
    (sigEvent = none → (stripeWebhookView sigEvent f db).1 = 400) ∧
    (∀ ev, sigEvent = some ev →
      ev.eventType = "payment_intent.succeeded" →
      (stripeWebhookView sigEvent f db).1 =
        if (handlePaymentIntentSucceeded ev f db).success then 200 else 400) ∧
    (∀ ev, sigEvent = some ev →
      ev.eventType ≠ "payment_intent.succeeded" →
      (stripeWebhookView sigEvent f db).1 = 200) := by
  refine ⟨?_, ?_, ?_⟩
  · intro h
    rw [h]
    rfl
  · intro ev h ht
    rw [h]
    simp only [stripeWebhookView, ht]
    cases hs : (handlePaymentIntentSucceeded ev f db).success <;> simp [hs]
  · intro ev h ht
    rw [h]
    simp only [stripeWebhookView]
    rw [if_neg (by simp [ht])]
    split <;> rfl

/-- Witness for C8 amended: the mismatching event gets the status the
handler's rejection dictates (400 here). -/
theorem c8_status_characterization_witness :
    (stripeWebhookView (some exEventMismatch) false exDb).1 =
      if (handlePaymentIntentSucceeded exEventMismatch false exDb).success
      then 200 else 400 :=
  (c8_status_characterization (some exEventMismatch) false exDb).2.1
    exEventMismatch rfl rfl

/-! C9.  Which status mutations go through guarded transitions. -/

/-- C9 counterexample: the asynchronous follow-up task run on an order in
CANCELLED status sets it to PROCESSING, although CANCELLED→PROCESSING is
not a legal edge of the Order State Machine.  This refutes the claim that
every status mutation performed by the core follows the state machine's
guarded transitions. -/
theorem c9_counterexample :
    (sendInvoiceAndStartProcessing 1
      ⟨[⟨1, 1200, OrderStatus.cancelled⟩], []⟩).2 =
      ⟨[⟨1, 1200, OrderStatus.processing⟩], []⟩ ∧
    legalEdge OrderStatus.cancelled OrderStatus.processing = false := by
  decide

/-- C9 amended: the payment handler mutates order status only through the
guarded `mark_as_paid` — in any database with unique order ids (the
primary-key invariant), every order after a handler call is either
untouched or was PENDING and became PAID, a legal edge; the follow-up
task, however, writes PROCESSING directly with no guard: whenever the
order exists it is set to PROCESSING regardless of its current status,
which is the legal PAID→PROCESSING edge only when the order was PAID. -/
theorem c9_status_mutation_paths :
    (∀ (ev : WebhookEvent) (f : Bool) (db : DB) (o2 : RepairOrder),
      (db.orders.map RepairOrder.id).Nodup →
      o2 ∈ (handlePaymentIntentSucceeded ev f db).db.orders →
      ∃ o ∈ db.orders, o2 = o ∨
        (o.status = OrderStatus.pending ∧
         o2 = { o with status := OrderStatus.paid } ∧
         legalEdge o.status o2.status = true)) ∧
    (∀ (oid : Nat) (db : DB) (o : RepairOrder), findOrder db oid = some o →
      (sendInvoiceAndStartProcessing oid db).2 =
        saveOrder db { o with status := OrderStatus.processing }) ∧
    legalEdge OrderStatus.paid OrderStatus.processing = true := by
  refine ⟨?_, ?_, rfl⟩
  · intro ev f db o2 hnodup hmem
    cases hoid : ev.orderId with
    | none =>
      rw [show (handlePaymentIntentSucceeded ev f db).db = db by
        simp [handlePaymentIntentSucceeded, hoid]] at hmem
      exact ⟨o2, hmem, Or.inl rfl⟩
    | some oid =>
      cases hord : findOrder db oid with
      | none =>
        rw [show (handlePaymentIntentSucceeded ev f db).db = db by
          simp [handlePaymentIntentSucceeded, hoid, hord]] at hmem
        exact ⟨o2, hmem, Or.inl rfl⟩
      | some order =>
        cases hhas : hasEvent db ev.id with
        | true =>
          rw [show (handlePaymentIntentSucceeded ev f db).db = db by
            simp [handlePaymentIntentSucceeded, hoid, hord, hhas]] at hmem
          exact ⟨o2, hmem, Or.inl rfl⟩
        | false =>
          by_cases hamt : ev.amountCents = order.totalAmountCents
          · cases hmk : markAsPaid order with
            | error e =>
              rw [show (handlePaymentIntentSucceeded ev f db).db = db by
                simp [handlePaymentIntentSucceeded, hoid, hord, hhas, hamt,
                  hmk]] at hmem
              exact ⟨o2, hmem, Or.inl rfl⟩
            | ok order2 =>
              obtain ⟨hpend, horder2⟩ := (markAsPaid_ok_iff order order2).mp hmk
              cases f with
              | true =>
                rw [show (handlePaymentIntentSucceeded ev true db).db = db by
                  simp [handlePaymentIntentSucceeded, hoid, hord, hhas, hamt,
                    hmk]] at hmem
                exact ⟨o2, hmem, Or.inl rfl⟩
              | false =>
                rw [show (handlePaymentIntentSucceeded ev false db).db =
                    recordEvent (saveOrder db order2)
                      { eventId := ev.id, orderId := oid,
                        eventType := "payment.success",
                        amountCents := order.totalAmountCents,
                        status := EventStatus.processed,
                        errorMessage := none } by
                  simp [handlePaymentIntentSucceeded, hoid, hord, hhas, hamt,
                    hmk]] at hmem
                simp only [recordEvent, saveOrder] at hmem
                obtain ⟨o, ho, heq⟩ := List.mem_map.mp hmem
                have hordmem : order ∈ db.orders :=
                  List.mem_of_find?_eq_some hord
                by_cases hco : (o.id == order2.id) = true
                · rw [if_pos hco] at heq
                  have hoid2 : o.id = order.id := by
                    simp only [beq_iff_eq] at hco
                    rw [hco, horder2]
                  have hoo : o = order :=
                    List.inj_on_of_nodup_map hnodup ho hordmem hoid2
                  refine ⟨o, ho, Or.inr ⟨?_, ?_, ?_⟩⟩
                  · rw [hoo]
                    exact hpend
                  · rw [hoo, ← horder2, heq]
                  · rw [hoo, ← heq, horder2, hpend]
                    rfl
                · rw [if_neg hco] at heq
                  exact ⟨o, ho, Or.inl heq.symm⟩
          · rw [show (handlePaymentIntentSucceeded ev f db).db.orders =
                db.orders by
              simp [handlePaymentIntentSucceeded, hoid, hord, hhas, hamt,
                recordEvent]] at hmem
            exact ⟨o2, hmem, Or.inl rfl⟩
  · intro oid db o hord
    simp [sendInvoiceAndStartProcessing, hord]

/-- Witness for C9 amended: the follow-up task on the concrete pending
order overwrites its status with PROCESSING unconditionally. -/
theorem c9_status_mutation_paths_witness :
    (sendInvoiceAndStartProcessing 1 exDb).2 =
      saveOrder exDb { exOrderPending with status := OrderStatus.processing } :=
  c9_status_mutation_paths.2.1 1 exDb exOrderPending rfl

end MarketLink
